import Mathlib

/-!
Verification of the Atem RTM client shim (src/native/src/atem_rtm.cpp, the
deterministic simulator backend, and the token-resolution logic of
src/native/src/atem_rtm_real.cpp, the vendor-backed adapter).

C strings (`const char*`) are embedded as `Option String` (`none` = NULL).
The registered callback is embedded as a `Bool` flag (registered or not);
each send operation returns, besides its integer result, the list of
`InboundEvent`s delivered to the callback, in order.  The opaque
`user_data` context carries no information relevant to these claims and is
omitted.  Return codes are `Int` (`0` accepted, `-1` rejected), exactly as
in the C API.
-/

/-- `AtemRtmConfig` from atem_rtm.h: four nullable C-string fields. -/
structure AtemRtmConfig where
  app_id : Option String
  token : Option String
  channel : Option String
  client_id : Option String
  deriving Repr, DecidableEq

/-- The state behind the opaque `AtemRtmClient*` handle in atem_rtm.cpp. -/
structure AtemRtmClient where
  config : AtemRtmConfig
  callback : Bool
  connected : Bool
  logged_in : Bool
  channel_joined : Bool
  user_id : String
  channel_id : String
  token : String
  deriving Repr, DecidableEq

/-- The triple passed to a registered `AtemRtmMessageCallback`
(`from_client_id`, `payload`); the opaque context is omitted. -/
structure InboundEvent where
  sender : String
  payload : String
  deriving Repr, DecidableEq

/-- The client produced by `atem_rtm_create` for a non-null config:
`new AtemRtmClient()` default-initializes all flags to `false` and all
strings to empty; `create` then copies the config and stores the callback. -/
def initClient (cfg : AtemRtmConfig) (cb : Bool) : AtemRtmClient :=
  { config := cfg
    callback := cb
    connected := false
    logged_in := false
    channel_joined := false
    user_id := ""
    channel_id := ""
    token := "" }

/-- `atem_rtm_create`: returns NULL (`none`) iff the config is NULL. -/
def atem_rtm_create (config : Option AtemRtmConfig) (cb : Bool) :
    Option AtemRtmClient :=
  config.map (fun cfg => initClient cfg cb)

/-- `atem_rtm_connect` on a valid (non-null) handle: unconditionally sets
`connected := true` and clears `logged_in` and `channel_joined`,
returning 0. -/
def atem_rtm_connect (c : AtemRtmClient) : Int × AtemRtmClient :=
  (0, { c with connected := true, logged_in := false, channel_joined := false })

/-- `atem_rtm_disconnect` on a valid handle: clears all three flags,
returning 0. -/
def atem_rtm_disconnect (c : AtemRtmClient) : Int × AtemRtmClient :=
  (0, { c with connected := false, logged_in := false, channel_joined := false })

/-- `atem_rtm_login` on a valid handle: fails (-1) when not connected or
`user_id` is NULL; otherwise stores `token` (empty string when NULL),
stores `user_id`, sets `logged_in`, and returns 0. -/
def atem_rtm_login (c : AtemRtmClient) (token : Option String)
    (user_id : Option String) : Int × AtemRtmClient :=
  match user_id with
  | none => (-1, c)
  | some uid =>
    if c.connected then
      (0, { c with token := token.getD "", user_id := uid, logged_in := true })
    else
      (-1, c)

/-- `atem_rtm_join_channel` on a valid handle: fails (-1) when not logged in
or `channel_id` is NULL; otherwise records the channel and sets
`channel_joined`, returning 0. -/
def atem_rtm_join_channel (c : AtemRtmClient) (channel_id : Option String) :
    Int × AtemRtmClient :=
  match channel_id with
  | none => (-1, c)
  | some ch =>
    if c.logged_in then
      (0, { c with channel_id := ch, channel_joined := true })
    else
      (-1, c)

/-- `atem_rtm_publish_channel` on a valid handle: fails (-1) when not
connected, not channel-joined, or `payload` is NULL; otherwise, when a
callback is registered, it is invoked once with sender
`config.client_id` (or `"self"` when that field is NULL) and the payload
unchanged.  The client state is not mutated; returns 0. -/
def atem_rtm_publish_channel (c : AtemRtmClient) (payload : Option String) :
    Int × List InboundEvent :=
  match payload with
  | none => (-1, [])
  | some p =>
    if c.connected && c.channel_joined then
      if c.callback then
        (0, [⟨c.config.client_id.getD "self", p⟩])
      else
        (0, [])
    else
      (-1, [])

/-- `atem_rtm_send_peer` on a valid handle: fails (-1) when not connected or
either `target_client_id` or `payload` is NULL; otherwise, when a callback
is registered, it is invoked once echoing the target as sender and the
payload unchanged.  The client state is not mutated; returns 0. -/
def atem_rtm_send_peer (c : AtemRtmClient) (target_client_id : Option String)
    (payload : Option String) : Int × List InboundEvent :=
  match target_client_id, payload with
  | some t, some p =>
    if c.connected then
      if c.callback then
        (0, [⟨t, p⟩])
      else
        (0, [])
    else
      (-1, [])
  | _, _ => (-1, [])

/-- One public operation on a client handle (arguments included). -/
inductive Op where
  | connect : Op
  | disconnect : Op
  | login : Option String → Option String → Op
  | joinChannel : Option String → Op
  | publishChannel : Option String → Op
  | sendPeer : Option String → Option String → Op
  deriving Repr, DecidableEq

/-- State after one public operation.  `publish`/`send` never mutate the
client. -/
def applyOp (c : AtemRtmClient) : Op → AtemRtmClient
  | .connect => (atem_rtm_connect c).2
  | .disconnect => (atem_rtm_disconnect c).2
  | .login tok uid => (atem_rtm_login c tok uid).2
  | .joinChannel ch => (atem_rtm_join_channel c ch).2
  | .publishChannel _ => c
  | .sendPeer _ _ => c

/-- State after a sequence of public operations. -/
def runOps (c : AtemRtmClient) (ops : List Op) : AtemRtmClient :=
  ops.foldl applyOp c

/-- The state-ordering invariant: `channel_joined` implies `logged_in`
implies `connected`. -/
def stateInvariant (c : AtemRtmClient) : Prop :=
  (c.channel_joined = true → c.logged_in = true) ∧
  (c.logged_in = true → c.connected = true)

instance (c : AtemRtmClient) : Decidable (stateInvariant c) := by
  unfold stateInvariant; infer_instance

/-- A client state reachable from `atem_rtm_create` by public operations. -/
def Reachable (c : AtemRtmClient) : Prop :=
  ∃ (cfg : AtemRtmConfig) (cb : Bool) (ops : List Op),
    runOps (initClient cfg cb) ops = c

lemma stateInvariant_init (cfg : AtemRtmConfig) (cb : Bool) :
    stateInvariant (initClient cfg cb) := by
  constructor <;> intro h <;> simp [initClient] at h

lemma stateInvariant_applyOp {c : AtemRtmClient} (h : stateInvariant c)
    (op : Op) : stateInvariant (applyOp c op) := by
  obtain ⟨h1, h2⟩ := h
  cases op with
  | connect => exact ⟨by simp [applyOp, atem_rtm_connect], by simp [applyOp, atem_rtm_connect]⟩
  | disconnect => exact ⟨by simp [applyOp, atem_rtm_disconnect], by simp [applyOp, atem_rtm_disconnect]⟩
  | login tok uid =>
    cases uid with
    | none => exact ⟨h1, h2⟩
    | some uid =>
      by_cases hc : c.connected
      · simp [applyOp, atem_rtm_login, hc, stateInvariant]
      · have he : applyOp c (Op.login tok (some uid)) = c := by
          simp [applyOp, atem_rtm_login, hc]
        rw [he]; exact ⟨h1, h2⟩
  | joinChannel ch =>
    cases ch with
    | none => exact ⟨h1, h2⟩
    | some ch =>
      by_cases hl : c.logged_in
      · simp [applyOp, atem_rtm_join_channel, hl, stateInvariant]
        exact h2 hl
      · have he : applyOp c (Op.joinChannel (some ch)) = c := by
          simp [applyOp, atem_rtm_join_channel, hl]
        rw [he]; exact ⟨h1, h2⟩
  | publishChannel p => exact ⟨h1, h2⟩
  | sendPeer t p => exact ⟨h1, h2⟩

lemma stateInvariant_runOps {c : AtemRtmClient} (h : stateInvariant c)
    (ops : List Op) : stateInvariant (runOps c ops) := by
  induction ops generalizing c with
  | nil => exact h
  | cons op rest ih => exact ih (stateInvariant_applyOp h op)

lemma stateInvariant_reachable {c : AtemRtmClient} (h : Reachable c) :
    stateInvariant c := by
  obtain ⟨cfg, cb, ops, rfl⟩ := h
  exact stateInvariant_runOps (stateInvariant_init cfg cb) ops

/-- C1: for every sequence of public operations on a valid client handle,
the state-ordering invariant holds after each operation: never
`channel_joined` without `logged_in`, never `logged_in` without
`connected`. -/
theorem atem_rtm_state_invariant_all_ops
    (cfg : AtemRtmConfig) (cb : Bool) (c : AtemRtmClient)
    (h : atem_rtm_create (some cfg) cb = some c) (ops : List Op) :
    stateInvariant (runOps c ops) := by
  have hc : c = initClient cfg cb := by
    simpa [atem_rtm_create] using h.symm
  subst hc
  exact stateInvariant_runOps (stateInvariant_init cfg cb) ops

/-- Witness for C1 at a concrete config and operation sequence. -/
theorem atem_rtm_state_invariant_all_ops_witness :
    stateInvariant (runOps (initClient ⟨some "A", none, some "c1", some "u1"⟩ true)
      [Op.connect, Op.login (some "tok") (some "u1"), Op.joinChannel (some "c1")]) :=
  atem_rtm_state_invariant_all_ops ⟨some "A", none, some "c1", some "u1"⟩ true _
    rfl [Op.connect, Op.login (some "tok") (some "u1"), Op.joinChannel (some "c1")]

/-- The fresh client of the spec scenario: config
`{app_id:"A", client_id:"u1", channel:"c1"}` with a registered callback. -/
def scen0 : AtemRtmClient := initClient ⟨some "A", none, some "c1", some "u1"⟩ true

/-- Scenario state after `connect`. -/
def scen1 : AtemRtmClient := (atem_rtm_connect scen0).2

/-- Scenario state after `authenticate("tok","u1")`. -/
def scen2 : AtemRtmClient := (atem_rtm_login scen1 (some "tok") (some "u1")).2

/-- Scenario state after `join_channel("c1")`. -/
def scen3 : AtemRtmClient := (atem_rtm_join_channel scen2 (some "c1")).2

/-- C2: on a fresh client with config `{app_id:"A", client_id:"u1",
channel:"c1"}` and a registered callback, the sequence connect;
authenticate("tok","u1"); publish("x"); join("c1"); publish("x") returns
0, 0, -1, 0, 0, the failed publish delivers nothing, and the final publish
invokes the callback exactly once with sender `"u1"` (the configured
client_id) and payload `"x"`. -/
theorem atem_rtm_scenario_connect_login_publish_join_publish :
    (atem_rtm_connect scen0).1 = 0 ∧
    (atem_rtm_login scen1 (some "tok") (some "u1")).1 = 0 ∧
    atem_rtm_publish_channel scen2 (some "x") = (-1, []) ∧
    (atem_rtm_join_channel scen2 (some "c1")).1 = 0 ∧
    atem_rtm_publish_channel scen3 (some "x") = (0, [⟨"u1", "x"⟩]) := by
  decide

/-- C3: on every state of a valid client handle, disconnect() returns 0,
clears `connected`, `logged_in` (authentication) and `channel_joined`
(membership), and a second disconnect returns 0 and leaves the state
unchanged. -/
theorem atem_rtm_disconnect_resets_and_idempotent (c : AtemRtmClient) :
    (atem_rtm_disconnect c).1 = 0 ∧
    (atem_rtm_disconnect c).2.connected = false ∧
    (atem_rtm_disconnect c).2.logged_in = false ∧
    (atem_rtm_disconnect c).2.channel_joined = false ∧
    atem_rtm_disconnect (atem_rtm_disconnect c).2 = (0, (atem_rtm_disconnect c).2) := by
  simp [atem_rtm_disconnect]

/-- A client in state Connected, reached through the public API
(create; connect). -/
def connected_client : AtemRtmClient :=
  (atem_rtm_connect (initClient ⟨some "A", none, some "c1", some "u1"⟩ true)).2

/-- C4 counterexample: a valid client already in state Connected on which
connect() returns 0 rather than the claimed InvalidState rejection -1. -/
theorem atem_rtm_connect_on_connected_returns_zero :
    connected_client.connected = true ∧
    (atem_rtm_connect connected_client).1 = 0 ∧
    (atem_rtm_connect connected_client).1 ≠ -1 := by
  decide

/-- C4 amended: connect() on a valid handle never checks the current state:
it always returns 0 and moves the client to Connected, clearing
authentication and channel membership, from any prior state. -/
theorem atem_rtm_connect_always_succeeds (c : AtemRtmClient) :
    atem_rtm_connect c =
      (0, { c with connected := true, logged_in := false, channel_joined := false }) :=
  rfl

/-- C5 counterexample: login accepts an empty (non-null) participant_id in
state Connected (claim demands InvalidArgument -1), and also succeeds from
state Authenticated (claim demands InvalidState -1 when not exactly
Connected). -/
theorem atem_rtm_login_lax_validation_counterexample :
    (scen1.connected = true ∧ scen1.logged_in = false ∧
      (atem_rtm_login scen1 (some "t") (some "")).1 = 0) ∧
    (scen2.logged_in = true ∧
      (atem_rtm_login scen2 (some "t2") (some "u2")).1 = 0) := by
  decide

/-- C5 amended: login succeeds (0) iff the client is connected (any of the
connected states, relogin from Authenticated or ChannelJoined included)
and participant_id is non-NULL; it fails (-1) otherwise.  Emptiness of
participant_id is not checked. -/
theorem atem_rtm_login_result_characterization (c : AtemRtmClient)
    (tok uid : Option String) :
    ((atem_rtm_login c tok uid).1 = 0 ↔ (c.connected = true ∧ uid ≠ none)) ∧
    ((atem_rtm_login c tok uid).1 = -1 ↔ ¬(c.connected = true ∧ uid ≠ none)) := by
  cases uid <;> by_cases hc : c.connected <;> simp [atem_rtm_login, hc]

/-- Token stored at creation by the real backend (atem_rtm_real.cpp,
`atem_rtm_create`): the configured token, or empty when that field is
NULL. -/
def atem_rtm_real_create_token (cfg : AtemRtmConfig) : String :=
  cfg.token.getD ""

/-- Token handed to the SDK login call by the real backend
(atem_rtm_real.cpp, `atem_rtm_login`): the supplied token when it is
non-NULL and non-empty, otherwise the token stored at creation. -/
def atem_rtm_real_resolve_token (client_token : String)
    (token : Option String) : String :=
  match token with
  | some t => if t = "" then client_token else t
  | none => client_token

/-- A connected client whose config carries default token "cfgtok",
reached through the public API (create; connect). -/
def cfg_tok_client : AtemRtmClient :=
  (atem_rtm_connect (initClient ⟨some "A", some "cfgtok", some "c1", some "u1"⟩ true)).2

/-- C6 counterexample: in the simulator, a successful login with a NULL
token records the empty string, not the configured default token
"cfgtok". -/
theorem atem_rtm_login_token_no_fallback_counterexample :
    cfg_tok_client.config.token = some "cfgtok" ∧
    (atem_rtm_login cfg_tok_client none (some "u1")).1 = 0 ∧
    ((atem_rtm_login cfg_tok_client none (some "u1")).2).token = "" ∧
    ((atem_rtm_login cfg_tok_client none (some "u1")).2).token ≠ "cfgtok" := by
  decide

/-- C6 amended: the simulator records the supplied token verbatim and the
empty string when it is NULL — it never falls back to the configured
default; only the real backend resolves the login token with a fallback,
using the supplied token when non-NULL and non-empty and the configured
default token otherwise. -/
theorem atem_rtm_login_token_resolution :
    (∀ (c : AtemRtmClient) (tok : Option String) (uid : String),
      c.connected = true →
      ((atem_rtm_login c tok (some uid)).2).token = tok.getD "") ∧
    (∀ (cfg : AtemRtmConfig) (tok : String), tok ≠ "" →
      atem_rtm_real_resolve_token (atem_rtm_real_create_token cfg) (some tok) = tok) ∧
    (∀ cfg : AtemRtmConfig,
      atem_rtm_real_resolve_token (atem_rtm_real_create_token cfg) none = cfg.token.getD "" ∧
      atem_rtm_real_resolve_token (atem_rtm_real_create_token cfg) (some "") = cfg.token.getD "") := by
  refine ⟨fun c tok uid hc => ?_, fun cfg tok ht => ?_, fun cfg => ?_⟩
  · simp [atem_rtm_login, hc]
  · simp [atem_rtm_real_resolve_token, ht]
  · simp [atem_rtm_real_resolve_token, atem_rtm_real_create_token]

/-- Witness for C6 amended at concrete inputs. -/
theorem atem_rtm_login_token_resolution_witness :
    ((atem_rtm_login cfg_tok_client (some "t") (some "u1")).2).token = "t" ∧
    atem_rtm_real_resolve_token
      (atem_rtm_real_create_token ⟨some "A", some "d", none, some "u"⟩) (some "t") = "t" ∧
    atem_rtm_real_resolve_token
      (atem_rtm_real_create_token ⟨some "A", some "d", none, some "u"⟩) none = "d" :=
  ⟨by
    have h := atem_rtm_login_token_resolution.1 cfg_tok_client (some "t") "u1" (by decide)
    simpa using h,
   atem_rtm_login_token_resolution.2.1 ⟨some "A", some "d", none, some "u"⟩ "t" (by decide),
   (atem_rtm_login_token_resolution.2.2 ⟨some "A", some "d", none, some "u"⟩).1⟩

/-- C7 counterexample: a channel-joined client accepts an empty (non-null)
payload with result 0, where the claim demands an InvalidArgument
rejection -1. -/
theorem atem_rtm_publish_empty_payload_counterexample :
    scen3.channel_joined = true ∧
    (atem_rtm_publish_channel scen3 (some "")).1 = 0 ∧
    (atem_rtm_publish_channel scen3 (some "")).1 ≠ -1 := by
  decide

/-- C7 amended: publish succeeds (0) iff the client is connected and
channel-joined and the payload is non-NULL (the empty payload included);
it is rejected (-1) exactly otherwise. -/
theorem atem_rtm_publish_result_characterization (c : AtemRtmClient)
    (payload : Option String) :
    ((atem_rtm_publish_channel c payload).1 = 0 ↔
      (c.connected = true ∧ c.channel_joined = true ∧ payload ≠ none)) ∧
    ((atem_rtm_publish_channel c payload).1 = -1 ↔
      ¬(c.connected = true ∧ c.channel_joined = true ∧ payload ≠ none)) := by
  cases payload <;> by_cases hc : c.connected <;> by_cases hj : c.channel_joined <;>
    by_cases hcb : c.callback <;> simp [atem_rtm_publish_channel, hc, hj, hcb]

/-- C8 counterexample: a connected client accepts an empty (non-null)
target_id with result 0, where the claim demands an InvalidArgument
rejection -1. -/
theorem atem_rtm_send_peer_empty_target_counterexample :
    connected_client.connected = true ∧
    (atem_rtm_send_peer connected_client (some "") (some "ping")).1 = 0 ∧
    (atem_rtm_send_peer connected_client (some "") (some "ping")).1 ≠ -1 := by
  decide

/-- C8 amended: send_to_peer succeeds (0) iff the client is connected and
both target_id and payload are non-NULL (empty strings included),
independent of authentication and channel membership; it is rejected
(-1) exactly otherwise. -/
theorem atem_rtm_send_peer_result_characterization (c : AtemRtmClient)
    (target payload : Option String) :
    ((atem_rtm_send_peer c target payload).1 = 0 ↔
      (c.connected = true ∧ target ≠ none ∧ payload ≠ none)) ∧
    ((atem_rtm_send_peer c target payload).1 = -1 ↔
      ¬(c.connected = true ∧ target ≠ none ∧ payload ≠ none)) := by
  cases target <;> cases payload <;> by_cases hc : c.connected <;>
    by_cases hcb : c.callback <;> simp [atem_rtm_send_peer, hc, hcb]

/-- C9: in the simulator, sends loop back to the registered callback with
the payload unchanged.  Every reachable channel-joined client with a
registered callback delivers publish("hello") as exactly one event with
payload "hello" (sender the configured client_id, or "self" when that
field is NULL); every reachable connected client with a registered
callback delivers send_to_peer("peer42","ping") as exactly one event with
sender "peer42" and payload "ping". -/
theorem atem_rtm_simulator_loopback (c : AtemRtmClient) (h : Reachable c)
    (hcb : c.callback = true) :
    (c.channel_joined = true →
      atem_rtm_publish_channel c (some "hello") =
        (0, [⟨c.config.client_id.getD "self", "hello"⟩])) ∧
    (c.connected = true →
      atem_rtm_send_peer c (some "peer42") (some "ping") =
        (0, [⟨"peer42", "ping"⟩])) := by
  have hinv := stateInvariant_reachable h
  constructor
  · intro hj
    have hc : c.connected = true := hinv.2 (hinv.1 hj)
    simp [atem_rtm_publish_channel, hc, hj, hcb]
  · intro hc
    simp [atem_rtm_send_peer, hc, hcb]

/-- Witness for C9 at the concrete joined client of the scenario. -/
theorem atem_rtm_simulator_loopback_witness :
    atem_rtm_publish_channel scen3 (some "hello") =
      (0, [⟨scen3.config.client_id.getD "self", "hello"⟩]) ∧
    atem_rtm_send_peer scen3 (some "peer42") (some "ping") =
      (0, [⟨"peer42", "ping"⟩]) := by
  have hr : Reachable scen3 :=
    ⟨⟨some "A", none, some "c1", some "u1"⟩, true,
     [Op.connect, Op.login (some "tok") (some "u1"), Op.joinChannel (some "c1")],
     rfl⟩
  exact ⟨(atem_rtm_simulator_loopback scen3 hr rfl).1 rfl,
         (atem_rtm_simulator_loopback scen3 hr rfl).2 rfl⟩

lemma callback_applyOp (c : AtemRtmClient) (op : Op) :
    (applyOp c op).callback = c.callback := by
  cases op with
  | connect => rfl
  | disconnect => rfl
  | login tok uid =>
    cases uid with
    | none => rfl
    | some uid =>
      by_cases hc : c.connected <;> simp [applyOp, atem_rtm_login, hc]
  | joinChannel ch =>
    cases ch with
    | none => rfl
    | some ch =>
      by_cases hl : c.logged_in <;> simp [applyOp, atem_rtm_join_channel, hl]
  | publishChannel p => rfl
  | sendPeer t p => rfl

lemma callback_runOps (c : AtemRtmClient) (ops : List Op) :
    (runOps c ops).callback = c.callback := by
  induction ops generalizing c with
  | nil => rfl
  | cons op rest ih =>
    have : runOps c (op :: rest) = runOps (applyOp c op) rest := rfl
    rw [this, ih, callback_applyOp]

/-- C10: a client created with a NULL callback keeps it NULL under every
operation sequence, and on any client without a callback, publish and
send_to_peer still return 0 when their state and argument preconditions
hold, while delivering no event at all. -/
theorem atem_rtm_null_callback_safe (cfg : AtemRtmConfig) (ops : List Op)
    (p t q : String) :
    (runOps (initClient cfg false) ops).callback = false ∧
    (∀ c : AtemRtmClient, c.callback = false →
      (c.connected = true → c.channel_joined = true →
        atem_rtm_publish_channel c (some p) = (0, [])) ∧
      (c.connected = true →
        atem_rtm_send_peer c (some t) (some q) = (0, []))) := by
  refine ⟨callback_runOps _ ops, fun c hcb => ⟨fun hc hj => ?_, fun hc => ?_⟩⟩
  · simp [atem_rtm_publish_channel, hc, hj, hcb]
  · simp [atem_rtm_send_peer, hc, hcb]

/-- A connected and channel-joined client created without a callback,
reached through the public API. -/
def silent_client : AtemRtmClient :=
  runOps (initClient ⟨some "A", none, some "c1", some "u1"⟩ false)
    [Op.connect, Op.login (some "tok") (some "u1"), Op.joinChannel (some "c1")]

/-- Witness for C10 at the concrete callback-less joined client. -/
theorem atem_rtm_null_callback_safe_witness :
    (runOps (initClient ⟨some "A", none, some "c1", some "u1"⟩ false)
      [Op.connect, Op.login (some "tok") (some "u1"),
       Op.joinChannel (some "c1")]).callback = false ∧
    atem_rtm_publish_channel silent_client (some "x") = (0, []) ∧
    atem_rtm_send_peer silent_client (some "peer") (some "y") = (0, []) :=
  ⟨(atem_rtm_null_callback_safe ⟨some "A", none, some "c1", some "u1"⟩
      [Op.connect, Op.login (some "tok") (some "u1"), Op.joinChannel (some "c1")]
      "x" "peer" "y").1,
   ((atem_rtm_null_callback_safe ⟨some "A", none, some "c1", some "u1"⟩ []
      "x" "peer" "y").2 silent_client rfl).1 rfl rfl,
   ((atem_rtm_null_callback_safe ⟨some "A", none, some "c1", some "u1"⟩ []
      "x" "peer" "y").2 silent_client rfl).2 rfl⟩
